import Mathlib

/-!
Shallow embedding of `src/master/detector.cpp` (Apache Mesos master
detectors): the standalone detector process, the ZooKeeper-backed detector
process (modelled as an explicit event-step machine), and the
`MasterDetector::create` factory.

Promises (`Promise<Option<UPID>>*`) are modelled by identifiers (`Nat`);
the pending-waiter set `promises` is a list of such identifiers, and each
handler returns, besides the new state, the list of fulfilments it performs
(`promise id` paired with the outcome it is resolved with).  Group
memberships (`Group::Membership`) are opaque and modelled by `Nat`.
-/

namespace MesosDetector

/-- Decides whether `p` is a prefix of `s` (the C++ `s.find(p) == 0`),
computed on the character lists so that it evaluates inside the kernel. -/
def strStarts (p s : String) : Bool := p.data.isPrefixOf s.data

/-- A libprocess `UPID`.  Treated as an opaque, equality-comparable wrapper
around the string it was constructed from: `UPID(string)` in libprocess is a
total constructor (it may yield an "invalid" pid, but always yields a value). -/
structure UPID where
  pid : String
deriving DecidableEq

/-- Outcome a pending promise is resolved with: `promise->set(v)` or
`promise->fail(msg)`. -/
inductive Outcome where
  | value (v : Option UPID)
  | failure (msg : String)
deriving DecidableEq

/-- Result of a `detect(previous)` call: an already-resolved future holding a
value, a parked (pending) future identified by the fresh promise id, or an
already-failed future (`Failure(msg)`). -/
inductive DetectResult where
  | immediate (v : Option UPID)
  | parked (id : Nat)
  | failed (msg : String)
deriving DecidableEq

/-- A completed future of payload `α`: either ready with a value or failed
with a message (the handlers `CHECK` that it is not discarded). -/
inductive FutureResult (α : Type) where
  | ready (a : α)
  | failed (msg : String)
deriving DecidableEq

/-! ## StandaloneMasterDetectorProcess -/

/-- State of `StandaloneMasterDetectorProcess`: the appointed leader and the
set of pending promises (by id). -/
structure StandaloneState where
  leader : Option UPID
  promises : List Nat
deriving DecidableEq

namespace StandaloneState

/-- Embeds `StandaloneMasterDetectorProcess::appoint`: store the new leader
unconditionally, set every pending promise to it, clear the set.
Returns the new state and the fulfilments performed. -/
def appoint (s : StandaloneState) (newLeader : Option UPID) :
    StandaloneState × List (Nat × Outcome) :=
  ({ leader := newLeader, promises := [] },
   s.promises.map (fun p => (p, Outcome.value newLeader)))

/-- Embeds `StandaloneMasterDetectorProcess::detect`: if the stored leader differs
from `previous`, return it immediately; otherwise insert a fresh promise
(id `fresh`) and return its (pending) future. -/
def detect (s : StandaloneState) (previous : Option UPID) (fresh : Nat) :
    StandaloneState × DetectResult :=
  if s.leader ≠ previous then
    (s, DetectResult.immediate s.leader)
  else
    ({ s with promises := s.promises ++ [fresh] }, DetectResult.parked fresh)

end StandaloneState

/-! ## ZooKeeperMasterDetectorProcess -/

/-- Effects performed by a single run of the `detected` handler besides
promise fulfilments: the membership whose data fetch was started (if any),
and the baseline passed to the re-armed `detector.detect(...)` watch
(`none` when the watch is not re-armed). -/
structure DetectedEffects where
  fulfilled : List (Nat × Outcome)
  fetchStarted : Option Nat
  rearmBaseline : Option (Option Nat)
deriving DecidableEq

/-- State of `ZooKeeperMasterDetectorProcess`.  Besides the fields of the
C++ class (`leader`, `promises`, `error`), the machine tracks the pending
asynchronous operations the process has outstanding: whether a
`detector.detect(...)` watch is armed (`watchArmed`) and the memberships
whose `group->data(...)` fetch is in flight (`fetchesInFlight`).  These
gate which handler events can fire. -/
structure ZKState where
  leader : Option UPID
  promises : List Nat
  error : Option String
  watchArmed : Bool
  fetchesInFlight : List Nat
deriving DecidableEq

namespace ZKState

/-- State right after construction and `initialize()`: no leader, no
pending promise, no error, one watch armed (`detector.detect()` with no
baseline), no fetch in flight. -/
def init : ZKState :=
  { leader := none, promises := [], error := none,
    watchArmed := true, fetchesInFlight := [] }

/-- Embeds `ZooKeeperMasterDetectorProcess::detect`: fail immediately with the
stored error if one is set; else return the leader immediately if it
differs from `previous`; else park a fresh promise. -/
def detect (s : ZKState) (previous : Option UPID) (fresh : Nat) :
    ZKState × DetectResult :=
  match s.error with
  | some e => (s, DetectResult.failed e)
  | none =>
    if s.leader ≠ previous then
      (s, DetectResult.immediate s.leader)
    else
      ({ s with promises := s.promises ++ [fresh] }, DetectResult.parked fresh)

/-- Embeds `ZooKeeperMasterDetectorProcess::detected`, run when the armed watch
future completes with `r` (a failure, or a ready optional leading
membership).  Returns the new state and the effects performed. -/
def detected (s : ZKState) (r : FutureResult (Option Nat)) :
    ZKState × DetectedEffects :=
  match r with
  | FutureResult.failed msg =>
      ({ s with error := some msg, leader := none, promises := [],
                watchArmed := false },
       { fulfilled := s.promises.map (fun p => (p, Outcome.failure msg)),
         fetchStarted := none, rearmBaseline := none })
  | FutureResult.ready none =>
      ({ s with leader := none, promises := [], watchArmed := true },
       { fulfilled := s.promises.map (fun p => (p, Outcome.value none)),
         fetchStarted := none, rearmBaseline := some none })
  | FutureResult.ready (some m) =>
      ({ s with watchArmed := true,
                fetchesInFlight := s.fetchesInFlight ++ [m] },
       { fulfilled := [], fetchStarted := some m,
         rearmBaseline := some (some m) })

/-- Embeds `ZooKeeperMasterDetectorProcess::fetched`, run when an in-flight data
fetch completes with `r`.  Returns the new state and the fulfilments
performed.  On success the bytes are converted by the total `UPID`
constructor with no validity check. -/
def fetched (s : ZKState) (r : FutureResult String) :
    ZKState × List (Nat × Outcome) :=
  match r with
  | FutureResult.failed msg =>
      ({ s with leader := none, promises := [] },
       s.promises.map (fun p => (p, Outcome.failure msg)))
  | FutureResult.ready data =>
      ({ s with leader := some (UPID.mk data), promises := [] },
       s.promises.map (fun p => (p, Outcome.value (some (UPID.mk data)))))

end ZKState

/-- An externally observable event hitting the detector process: a caller
invoking `detect`, the armed watch future completing, or an in-flight data
fetch completing. -/
inductive ZKEvent where
  | detectCall (previous : Option UPID) (fresh : Nat)
  | watchCompleted (r : FutureResult (Option Nat))
  | fetchCompleted (m : Nat) (r : FutureResult String)
deriving DecidableEq

namespace ZKState

/-- Apply one event to the state.  `watchCompleted` is enabled only when a
watch is armed; `fetchCompleted m` only when a fetch of membership `m` is
in flight (the completed fetch is removed from the in-flight list).
Returns `none` for an event that cannot occur in this state. -/
def applyEvent (s : ZKState) (e : ZKEvent) : Option ZKState :=
  match e with
  | ZKEvent.detectCall prev fresh => some (s.detect prev fresh).1
  | ZKEvent.watchCompleted r =>
      if s.watchArmed then some (s.detected r).1 else none
  | ZKEvent.fetchCompleted m r =>
      if m ∈ s.fetchesInFlight then
        some { (s.fetched r).1 with
               fetchesInFlight := s.fetchesInFlight.erase m }
      else none

/-- Run a sequence of events; `none` as soon as one is not enabled. -/
def run (s : ZKState) : List ZKEvent → Option ZKState
  | [] => some s
  | e :: es =>
    match s.applyEvent e with
    | some s' => s'.run es
    | none => none

end ZKState

/-! ## MasterDetector::create -/

/-- A parsed `zookeeper::URL` (only the fields `create` inspects or passes
along: servers, chroot path, authentication). -/
structure URL where
  servers : String
  path : String
  authentication : Option String
deriving DecidableEq

/-- The detector instance constructed by `MasterDetector::create`. -/
inductive Detector where
  | standalone (leader : Option UPID)
  | zookeeper (url : URL)
deriving DecidableEq

/-- Embeds `MasterDetector::create`.  The external collaborators are passed as
oracles: `urlParse` for `zookeeper::URL::parse`, `fileRead` for
`os::read`, `trim` for `strings::trim`, and `upidValid` for the validity
test `!pid` on a constructed `UPID`.  The `file://` branch re-invokes
`create` on the file contents; `fuel` bounds that recursion (the C++
original recurses unboundedly on a cycle of files). -/
def MasterDetector.create (urlParse : String → Except String URL)
    (fileRead : String → Except String String) (trim : String → String)
    (upidValid : String → Bool) :
    Nat → String → Except String Detector
  | 0, _ => Except.error "recursion limit exceeded"
  | fuel + 1, master =>
    if master = "" then
      Except.ok (Detector.standalone none)
    else if strStarts "zk://" master then
      match urlParse master with
      | Except.error e => Except.error e
      | Except.ok url =>
        if url.path = "/" then
          Except.error
            "Expecting a (chroot) path for ZooKeeper ('/' is not supported)"
        else
          Except.ok (Detector.zookeeper url)
    else if strStarts "file://" master then
      let path := String.mk (master.data.drop 7)
      match fileRead path with
      | Except.error _ =>
          Except.error ("Failed to read from file at '" ++ path ++ "'")
      | Except.ok contents =>
          MasterDetector.create urlParse fileRead trim upidValid fuel
            (trim contents)
    else
      let pid := if strStarts "master@" master then master
                 else "master@" ++ master
      if upidValid pid then
        Except.ok (Detector.standalone (some (UPID.mk pid)))
      else
        Except.error ("Failed to parse '" ++ master ++ "'")

/-!
## Theorems
-/

/-- C4: `StandaloneMasterDetectorProcess::appoint(newLeader)` unconditionally
sets the stored leader to `newLeader` (even when it equals the current
leader), fulfills every pending waiter with `newLeader`, and clears the
waiter set; moreover a waiter parked between two consecutive `appoint(L)`
calls with the same `L` is fulfilled with `L` by the second call. -/
theorem standalone_appoint_unconditional (s : StandaloneState)
    (L : Option UPID) (fresh : Nat) :
    ((s.appoint L).1 = { leader := L, promises := [] }) ∧
    ((s.appoint L).2 = s.promises.map (fun p => (p, Outcome.value L))) ∧
    (((s.appoint L).1.detect L fresh).2 = DetectResult.parked fresh) ∧
    ((((s.appoint L).1.detect L fresh).1.appoint L).2 =
      [(fresh, Outcome.value L)]) := by
  unfold StandaloneState.appoint StandaloneState.detect
  simp

/-- C5: `StandaloneMasterDetectorProcess::detect(previous)` returns the
current leader immediately if and only if the stored leader differs from
`previous`; otherwise it registers a fresh promise at the end of the
pending set and parks, leaving the leader unchanged. -/
theorem standalone_detect_immediate_iff (s : StandaloneState)
    (previous : Option UPID) (fresh : Nat) :
    ((∃ v, (s.detect previous fresh).2 = DetectResult.immediate v) ↔
      s.leader ≠ previous) ∧
    (s.detect previous fresh =
      if s.leader = previous then
        ({ s with promises := s.promises ++ [fresh] },
         DetectResult.parked fresh)
      else
        (s, DetectResult.immediate s.leader)) ∧
    ((s.detect previous fresh).1.leader = s.leader) := by
  unfold StandaloneState.detect
  by_cases h : s.leader = previous <;> simp [h]

/-- C5 witness: with leader `master@b` and `previous = none`, `detect`
resolves immediately. -/
theorem standalone_detect_immediate_iff_witness :
    ∃ v, ((⟨some (UPID.mk "master@b"), []⟩ : StandaloneState).detect
      none 1).2 = DetectResult.immediate v :=
  (standalone_detect_immediate_iff ⟨some (UPID.mk "master@b"), []⟩
    none 1).1.2 (by decide)

/-- C1 (amended): a `detect(previous)` call on either detector never
*resolves immediately* with a value equal to `previous`. -/
theorem detect_immediate_result_ne_previous (s : StandaloneState)
    (z : ZKState) (previous : Option UPID) (fresh : Nat) (v : Option UPID) :
    ((s.detect previous fresh).2 = DetectResult.immediate v →
      v ≠ previous) ∧
    ((z.detect previous fresh).2 = DetectResult.immediate v →
      v ≠ previous) := by
  constructor
  · intro hv
    unfold StandaloneState.detect at hv
    by_cases h : s.leader = previous <;> simp [h] at hv
    exact hv ▸ h
  · intro hv
    unfold ZKState.detect at hv
    cases he : z.error with
    | some e => rw [he] at hv; simp at hv
    | none =>
      rw [he] at hv
      by_cases h : z.leader = previous <;> simp [h] at hv
      exact hv ▸ h

/-- C1 witness: with leader `master@a` and `previous = none`, both
detectors resolve immediately with a value different from `previous`. -/
theorem detect_immediate_result_ne_previous_witness :
    ((some (UPID.mk "master@a") : Option UPID) ≠ none) ∧
    ((some (UPID.mk "master@a") : Option UPID) ≠ none) :=
  ⟨(detect_immediate_result_ne_previous ⟨some (UPID.mk "master@a"), []⟩
      { ZKState.init with leader := some (UPID.mk "master@a") } none 0
      (some (UPID.mk "master@a"))).1 (by decide),
   (detect_immediate_result_ne_previous ⟨some (UPID.mk "master@a"), []⟩
      { ZKState.init with leader := some (UPID.mk "master@a") } none 0
      (some (UPID.mk "master@a"))).2 (by decide)⟩

/-- C1 counterexample: a waiter parked with `previous = master@a` on the
standalone detector is later fulfilled with exactly `master@a` by
`appoint(master@a)`, so a parked waiter can resolve with a value equal to
its `previous` argument. -/
theorem standalone_parked_waiter_fulfilled_with_previous :
    ((((⟨some (UPID.mk "master@a"), []⟩ : StandaloneState)).detect
        (some (UPID.mk "master@a")) 0).2 = DetectResult.parked 0) ∧
    (((((⟨some (UPID.mk "master@a"), []⟩ : StandaloneState)).detect
        (some (UPID.mk "master@a")) 0).1.appoint
          (some (UPID.mk "master@a"))).2 =
      [(0, Outcome.value (some (UPID.mk "master@a")))]) := by decide

/-- C7: on a successful watch result reporting no leader, `detected` sets
the leader to absent, fulfills every pending waiter with absent, clears the
waiter set, and re-arms the watch with the no-leader observation (`none`)
as the new baseline; it starts no fetch and leaves the error field alone. -/
theorem zk_detected_no_leader (s : ZKState) :
    ((s.detected (FutureResult.ready none)).1.leader = none) ∧
    ((s.detected (FutureResult.ready none)).2.fulfilled =
      s.promises.map (fun p => (p, Outcome.value none))) ∧
    ((s.detected (FutureResult.ready none)).1.promises = []) ∧
    ((s.detected (FutureResult.ready none)).2.rearmBaseline = some none) ∧
    ((s.detected (FutureResult.ready none)).1.watchArmed = true) ∧
    ((s.detected (FutureResult.ready none)).1.error = s.error) ∧
    ((s.detected (FutureResult.ready none)).2.fetchStarted = none) := by
  unfold ZKState.detected
  simp

/-- C8: on a successful watch result naming a leading member `m`,
`detected` leaves the leader field and the pending-waiter set untouched,
fulfills or fails nobody, starts an asynchronous fetch of `m`'s data, and
re-arms the watch with the new membership as baseline in the same step,
independent of the fetch's completion. -/
theorem zk_detected_leader_frame (s : ZKState) (m : Nat) :
    ((s.detected (FutureResult.ready (some m))).1.leader = s.leader) ∧
    ((s.detected (FutureResult.ready (some m))).1.promises = s.promises) ∧
    ((s.detected (FutureResult.ready (some m))).2.fulfilled = []) ∧
    ((s.detected (FutureResult.ready (some m))).2.fetchStarted = some m) ∧
    ((s.detected (FutureResult.ready (some m))).2.rearmBaseline =
      some (some m)) ∧
    ((s.detected (FutureResult.ready (some m))).1.watchArmed = true) ∧
    ((s.detected (FutureResult.ready (some m))).1.error = s.error) ∧
    ((s.detected (FutureResult.ready (some m))).1.fetchesInFlight =
      s.fetchesInFlight ++ [m]) := by
  unfold ZKState.detected
  simp

/-- C10: on a successful fetch, `fetched` converts the fetched bytes into a
`UPID` by the total constructor with no validity check: for every byte
string `data`, the leader becomes `UPID(data)`, every pending waiter is
fulfilled with that value (none is failed), and the waiter set is
cleared. -/
theorem zk_fetched_success_unchecked (s : ZKState) (data : String) :
    ((s.fetched (FutureResult.ready data)).1.leader =
      some (UPID.mk data)) ∧
    ((s.fetched (FutureResult.ready data)).2 =
      s.promises.map
        (fun p => (p, Outcome.value (some (UPID.mk data))))) ∧
    ((s.fetched (FutureResult.ready data)).1.promises = []) ∧
    ((s.fetched (FutureResult.ready data)).1.error = s.error) ∧
    (∀ pr, pr ∈ (s.fetched (FutureResult.ready data)).2 →
      pr.2 = Outcome.value (some (UPID.mk data))) := by
  unfold ZKState.fetched
  refine ⟨rfl, rfl, rfl, rfl, ?_⟩
  intro pr hpr
  simp at hpr
  obtain ⟨p, _, hp⟩ := hpr
  rw [← hp]

/-- C10 witness: a fetch yielding the unparseable bytes `"not an address"`
still fulfills the pending waiter `7` with `UPID("not an address")`. -/
theorem zk_fetched_success_unchecked_witness :
    ((7 : Nat), Outcome.value (some (UPID.mk "not an address"))).2 =
      Outcome.value (some (UPID.mk "not an address")) :=
  (zk_fetched_success_unchecked
    { ZKState.init with promises := [7], fetchesInFlight := [3] }
    "not an address").2.2.2.2
    (7, Outcome.value (some (UPID.mk "not an address"))) (by decide)

/-- C6: on a failed fetch, `fetched` sets the leader to absent, fails every
pending waiter with the fetch failure message, and clears the waiter set,
but leaves the terminal-error field untouched; if no terminal error was
set, a subsequent `detect` is still served normally (immediately with
absent, or parked when `previous` is already absent). -/
theorem zk_fetched_failure_transient (s : ZKState) (msg : String)
    (previous : Option UPID) (fresh : Nat) :
    ((s.fetched (FutureResult.failed msg)).1.leader = none) ∧
    ((s.fetched (FutureResult.failed msg)).2 =
      s.promises.map (fun p => (p, Outcome.failure msg))) ∧
    ((s.fetched (FutureResult.failed msg)).1.promises = []) ∧
    ((s.fetched (FutureResult.failed msg)).1.error = s.error) ∧
    (s.error = none →
      (s.fetched (FutureResult.failed msg)).1.detect previous fresh =
        if previous = none then
          ({ (s.fetched (FutureResult.failed msg)).1 with
             promises := [fresh] }, DetectResult.parked fresh)
        else
          ((s.fetched (FutureResult.failed msg)).1,
           DetectResult.immediate none)) := by
  unfold ZKState.fetched ZKState.detect
  refine ⟨rfl, rfl, rfl, rfl, ?_⟩
  intro he
  rw [he]
  by_cases h : previous = none
  · simp [h]
  · simp [h]
    exact fun hcon => h hcon.symm

/-- C6 witness: after a failed fetch with two pending waiters and no
terminal error, `detect(some master@a)` resolves immediately with absent. -/
theorem zk_fetched_failure_transient_witness :
    (({ ZKState.init with
        leader := some (UPID.mk "master@a"), promises := [4, 5] } :
      ZKState).fetched
      (FutureResult.failed "fetch failed")).1.detect
        (some (UPID.mk "master@a")) 9 =
      ((({ ZKState.init with
           leader := some (UPID.mk "master@a"), promises := [4, 5] } :
         ZKState).fetched
          (FutureResult.failed "fetch failed")).1,
       DetectResult.immediate none) := by
  have h := (zk_fetched_failure_transient
    { ZKState.init with
      leader := some (UPID.mk "master@a"), promises := [4, 5] }
    "fetch failed" (some (UPID.mk "master@a")) 9).2.2.2.2 rfl
  simpa using h

/-- C9: a construction string recognized as a ZooKeeper URI whose chroot
path parses to the root path `/` makes `MasterDetector::create` fail with
the descriptive configuration error, so no detector is constructed. -/
theorem create_rejects_root_chroot_path
    (urlParse : String → Except String URL)
    (fileRead : String → Except String String) (trim : String → String)
    (upidValid : String → Bool) (fuel : Nat) (master : String) (url : URL)
    (hne : master ≠ "") (hzk : strStarts "zk://" master = true)
    (hparse : urlParse master = Except.ok url) (hroot : url.path = "/") :
    MasterDetector.create urlParse fileRead trim upidValid (fuel + 1)
        master =
      Except.error
        "Expecting a (chroot) path for ZooKeeper ('/' is not supported)" := by
  unfold MasterDetector.create
  simp [hne, hzk, hparse, hroot]

/-- C9 witness: `create` on a concrete root-path ZooKeeper URI. -/
theorem create_rejects_root_chroot_path_witness :
    MasterDetector.create
        (fun _ => Except.ok ⟨"host:2181", "/", none⟩)
        (fun _ => Except.error "no file") id (fun _ => true) 1
        "zk://host:2181/" =
      Except.error
        "Expecting a (chroot) path for ZooKeeper ('/' is not supported)" :=
  create_rejects_root_chroot_path
    (fun _ => Except.ok ⟨"host:2181", "/", none⟩)
    (fun _ => Except.error "no file") id (fun _ => true) 0
    "zk://host:2181/" ⟨"host:2181", "/", none⟩
    (by decide) (by decide) rfl rfl

/-- With a stored terminal error, `detect` fails with exactly that message
and leaves the state unchanged. -/
theorem ZKState.detect_of_error {s : ZKState} {msg : String}
    (h : s.error = some msg) (previous : Option UPID) (fresh : Nat) :
    s.detect previous fresh = (s, DetectResult.failed msg) := by
  unfold ZKState.detect
  rw [h]

/-- A `detect` call changes neither the error field nor the watch arming. -/
theorem ZKState.detect_err_frame (s : ZKState) (previous : Option UPID)
    (fresh : Nat) :
    ((s.detect previous fresh).1.error = s.error) ∧
    ((s.detect previous fresh).1.watchArmed = s.watchArmed) := by
  unfold ZKState.detect
  cases h : s.error <;> simp [h]
  split <;> simp [h]

/-- The `fetched` handler changes neither the error field nor the watch
arming. -/
theorem ZKState.fetched_err_frame (s : ZKState) (r : FutureResult String) :
    ((s.fetched r).1.error = s.error) ∧
    ((s.fetched r).1.watchArmed = s.watchArmed) := by
  cases r <;> simp [ZKState.fetched]

/-- One enabled event preserves a stored error, and preserves the invariant
that a stored error implies a disarmed watch. -/
theorem ZKState.applyEvent_error_stable {s s' : ZKState} {e : ZKEvent}
    (happ : s.applyEvent e = some s')
    (hinv : s.error.isSome = true → s.watchArmed = false) :
    (∀ msg, s.error = some msg → s'.error = some msg) ∧
    (s'.error.isSome = true → s'.watchArmed = false) := by
  cases e with
  | detectCall previous fresh =>
    simp only [ZKState.applyEvent, Option.some.injEq] at happ
    subst happ
    obtain ⟨h1, h2⟩ := ZKState.detect_err_frame s previous fresh
    rw [h1, h2]
    exact ⟨fun _ hm => hm, hinv⟩
  | watchCompleted r =>
    simp only [ZKState.applyEvent] at happ
    by_cases hw : s.watchArmed
    · rw [if_pos hw, Option.some.injEq] at happ
      subst happ
      have hnone : s.error = none := by
        cases he : s.error with
        | none => rfl
        | some m =>
          have hfalse := hinv (by rw [he]; rfl)
          rw [hfalse] at hw
          cases hw
      cases r with
      | failed m =>
        refine ⟨fun msg hm => ?_, fun _ => rfl⟩
        rw [hnone] at hm
        cases hm
      | ready o =>
        refine ⟨fun msg hm => ?_, fun hs' => ?_⟩
        · rw [hnone] at hm
          cases hm
        · exfalso
          cases o <;> simp [ZKState.detected, hnone] at hs'
    · rw [if_neg hw] at happ
      cases happ
  | fetchCompleted m r =>
    simp only [ZKState.applyEvent] at happ
    by_cases hm : m ∈ s.fetchesInFlight
    · rw [if_pos hm, Option.some.injEq] at happ
      subst happ
      obtain ⟨h1, h2⟩ := ZKState.fetched_err_frame s r
      constructor
      · intro msg hmsg
        show (s.fetched r).1.error = some msg
        rw [h1]
        exact hmsg
      · intro hs'
        show (s.fetched r).1.watchArmed = false
        rw [h2]
        exact hinv (by rw [← h1]; exact hs')
    · rw [if_neg hm] at happ
      cases happ

/-- Along any enabled event sequence, a stored error is preserved verbatim
and keeps the watch disarmed. -/
theorem ZKState.run_error_stable :
    ∀ (es : List ZKEvent) (s s' : ZKState), s.run es = some s' →
    (s.error.isSome = true → s.watchArmed = false) →
    (∀ msg, s.error = some msg → s'.error = some msg) ∧
    (s'.error.isSome = true → s'.watchArmed = false) := by
  intro es
  induction es with
  | nil =>
    intro s s' hrun hinv
    simp only [ZKState.run, Option.some.injEq] at hrun
    subst hrun
    exact ⟨fun _ hm => hm, hinv⟩
  | cons e es ih =>
    intro s s' hrun hinv
    simp only [ZKState.run] at hrun
    cases happ : s.applyEvent e with
    | none =>
      rw [happ] at hrun
      cases hrun
    | some t =>
      rw [happ] at hrun
      obtain ⟨h1, h2⟩ := ZKState.applyEvent_error_stable happ hinv
      obtain ⟨h3, h4⟩ := ih t s' hrun h2
      exact ⟨fun msg hm => h3 msg (h1 msg hm), h4⟩

/-- C2 (amended): once the group-backed detector has recorded a terminal
error, every subsequent `detect(previous)` call, for any `previous`, fails
immediately with exactly the stored message — it neither returns a leader
value nor parks — and the error survives every further event verbatim. -/
theorem zk_terminal_error_sticky (es es' : List ZKEvent) (s s' : ZKState)
    (msg : String) (previous : Option UPID) (fresh : Nat)
    (hs : ZKState.init.run es = some s) (herr : s.error = some msg)
    (hs' : s.run es' = some s') :
    (s.detect previous fresh = (s, DetectResult.failed msg)) ∧
    (s'.error = some msg) ∧
    (s'.detect previous fresh = (s', DetectResult.failed msg)) := by
  have hinv : s.error.isSome = true → s.watchArmed = false :=
    (ZKState.run_error_stable es ZKState.init s hs
      (by simp [ZKState.init])).2
  have h2 := ZKState.run_error_stable es' s s' hs' hinv
  have herr' : s'.error = some msg := h2.1 msg herr
  exact ⟨ZKState.detect_of_error herr previous fresh, herr',
    ZKState.detect_of_error herr' previous fresh⟩

/-- C2 witness: after the watch fails with `boom`, `detect(none)` fails
with `boom`, immediately and after zero further events. -/
theorem zk_terminal_error_sticky_witness :
    (({ leader := none, promises := [], error := some "boom",
        watchArmed := false, fetchesInFlight := [] } : ZKState).detect
        none 0 =
      ({ leader := none, promises := [], error := some "boom",
         watchArmed := false, fetchesInFlight := [] },
       DetectResult.failed "boom")) ∧
    (({ leader := none, promises := [], error := some "boom",
        watchArmed := false, fetchesInFlight := [] } : ZKState).error =
      some "boom") ∧
    (({ leader := none, promises := [], error := some "boom",
        watchArmed := false, fetchesInFlight := [] } : ZKState).detect
        none 0 =
      ({ leader := none, promises := [], error := some "boom",
         watchArmed := false, fetchesInFlight := [] },
       DetectResult.failed "boom")) :=
  zk_terminal_error_sticky
    [ZKEvent.watchCompleted (FutureResult.failed "boom")] []
    { leader := none, promises := [], error := some "boom",
      watchArmed := false, fetchesInFlight := [] }
    { leader := none, promises := [], error := some "boom",
      watchArmed := false, fetchesInFlight := [] }
    "boom" none 0 (by decide) rfl rfl

/-- C2 counterexample: a fetch already in flight when the terminal watch
error arrives later completes and overwrites the leader field, so with the
terminal error set the leader field does not read as absent. -/
theorem zk_leader_not_absent_after_terminal_error :
    (ZKState.init.run
        [ZKEvent.watchCompleted (FutureResult.ready (some 0)),
         ZKEvent.watchCompleted (FutureResult.failed "boom"),
         ZKEvent.fetchCompleted 0 (FutureResult.ready "master@x")] =
      some { leader := some (UPID.mk "master@x"), promises := [],
             error := some "boom", watchArmed := false,
             fetchesInFlight := [] }) ∧
    ((some (UPID.mk "master@x") : Option UPID) ≠ none) := by decide

/-- C3: on a failed watch future, `detected` records the failure as the
terminal error, sets the leader to absent, fails every pending waiter with
the failure message, clears the waiter set, and does not re-arm the watch;
a watch failure is the only event that changes the error field; and from
any reachable state with the terminal error set, the watch stays disarmed
over every further event sequence. -/
theorem zk_detected_failure_terminal :
    (∀ (s : ZKState) (msg : String),
      ((s.detected (FutureResult.failed msg)).1.error = some msg) ∧
      ((s.detected (FutureResult.failed msg)).1.leader = none) ∧
      ((s.detected (FutureResult.failed msg)).2.fulfilled =
        s.promises.map (fun p => (p, Outcome.failure msg))) ∧
      ((s.detected (FutureResult.failed msg)).1.promises = []) ∧
      ((s.detected (FutureResult.failed msg)).2.rearmBaseline = none) ∧
      ((s.detected (FutureResult.failed msg)).1.watchArmed = false)) ∧
    (∀ (t u : ZKState) (e : ZKEvent), t.applyEvent e = some u →
      t.error ≠ u.error →
      ∃ msg, e = ZKEvent.watchCompleted (FutureResult.failed msg) ∧
        u.error = some msg) ∧
    (∀ (es es' : List ZKEvent) (t w : ZKState) (msg : String),
      ZKState.init.run es = some t → t.error = some msg →
      t.run es' = some w → w.watchArmed = false) := by
  refine ⟨?_, ?_, ?_⟩
  · intro s msg
    unfold ZKState.detected
    simp
  · intro t u e happ hne
    cases e with
    | detectCall previous fresh =>
      simp only [ZKState.applyEvent, Option.some.injEq] at happ
      rw [← happ, (ZKState.detect_err_frame t previous fresh).1] at hne
      exact absurd rfl hne
    | watchCompleted r =>
      simp only [ZKState.applyEvent] at happ
      by_cases hw : t.watchArmed
      · rw [if_pos hw, Option.some.injEq] at happ
        cases r with
        | failed msg =>
          refine ⟨msg, rfl, ?_⟩
          rw [← happ]
          rfl
        | ready o =>
          exfalso
          apply hne
          rw [← happ]
          cases o <;> rfl
      · rw [if_neg hw] at happ
        cases happ
    | fetchCompleted m r =>
      simp only [ZKState.applyEvent] at happ
      by_cases hm : m ∈ t.fetchesInFlight
      · rw [if_pos hm, Option.some.injEq] at happ
        rw [← happ] at hne
        exact absurd (ZKState.fetched_err_frame t r).1.symm hne
      · rw [if_neg hm] at happ
        cases happ
  · intro es es' t w msg hes herr hes'
    have hinv : t.error.isSome = true → t.watchArmed = false :=
      (ZKState.run_error_stable es ZKState.init t hes
        (by simp [ZKState.init])).2
    have h2 := ZKState.run_error_stable es' t w hes' hinv
    exact h2.2 (by rw [h2.1 msg herr]; rfl)

/-- C3 witness: the three parts instantiated on the watch failure `err`
fired from the freshly initialized state. -/
theorem zk_detected_failure_terminal_witness :
    ((ZKState.init.detected (FutureResult.failed "err")).1.error =
      some "err") ∧
    (∃ msg, (ZKEvent.watchCompleted (FutureResult.failed "err") :
        ZKEvent) = ZKEvent.watchCompleted (FutureResult.failed msg) ∧
      ({ leader := none, promises := [], error := some "err",
         watchArmed := false, fetchesInFlight := [] } : ZKState).error =
        some msg) ∧
    (({ leader := none, promises := [], error := some "err",
        watchArmed := false, fetchesInFlight := [] } : ZKState).watchArmed =
      false) :=
  ⟨(zk_detected_failure_terminal.1 ZKState.init "err").1,
   zk_detected_failure_terminal.2.1 ZKState.init
     { leader := none, promises := [], error := some "err",
       watchArmed := false, fetchesInFlight := [] }
     (ZKEvent.watchCompleted (FutureResult.failed "err"))
     (by decide) (by decide),
   zk_detected_failure_terminal.2.2
     [ZKEvent.watchCompleted (FutureResult.failed "err")] []
     { leader := none, promises := [], error := some "err",
       watchArmed := false, fetchesInFlight := [] }
     { leader := none, promises := [], error := some "err",
       watchArmed := false, fetchesInFlight := [] }
     "err" (by decide) rfl rfl⟩

end MesosDetector
